import Mathlib

/-!
# Verification of the VisaGeneralRegistration authentication core

Shallow embedding of the local authentication and lockout state machine:
`src/src/services/storage.ts` (`StorageService`) and the `AuthService`
(`register`, `login`, `logout`, `checkAuth`).

Modelling conventions:
* The two storage backends (encrypted keychain slot, plain key-value store)
  are collapsed into one explicit `StorageState` record passed through every
  operation.
* Every backend call that the source wraps in `try/catch` receives an extra
  `Bool` argument (`ok`): `true` means the backend call completes, `false`
  means it throws, in which case the source's `catch` branch is taken and the
  corresponding write does not happen.
* Timestamps are `Int` milliseconds (`Date.now()`); the current time is an
  explicit argument to every operation that reads the clock.
* `JSON.stringify`/`JSON.parse` round-trips of record values are modelled as
  the identity on the record (fields that are `undefined` are `none`).
-/

namespace VisaReg

/-- The keychain credential slot: `{email, password}`. -/
structure Credential where
  email : String
  password : String
deriving Repr, DecidableEq

/-- `User` from `src/types`: profile fields stored under `USER_DATA`. -/
structure User where
  email : String
  firstName : String
  lastName : String
  phoneNumber : String
deriving Repr, DecidableEq

/-- `RegistrationFormData`: all six registration form fields. -/
structure RegistrationFormData where
  email : String
  password : String
  confirmPassword : String
  firstName : String
  lastName : String
  phoneNumber : String
deriving Repr, DecidableEq

/-- `LoginFormData`: the two login form fields. -/
structure LoginFormData where
  email : String
  password : String
deriving Repr, DecidableEq

/-- `Partial<RegistrationFormData>`: every field optional.  A field that is
absent from the stored JSON object is `none`. -/
structure PartialRegistration where
  email : Option String := none
  password : Option String := none
  confirmPassword : Option String := none
  firstName : Option String := none
  lastName : Option String := none
  phoneNumber : Option String := none
deriving Repr, DecidableEq

/-- The durable state behind `StorageService`: the keychain slot plus the
AsyncStorage keys `USER_DATA`, `PARTIAL_REGISTRATION`, `FAILED_LOGIN_ATTEMPTS`
and `LOCKOUT_TIMESTAMP`, and the session flag used by the service layer
(see `setSessionActive` below). -/
structure StorageState where
  credential : Option Credential := none
  userData : Option User := none
  partialRegistration : Option PartialRegistration := none
  failedAttempts : Option Nat := none
  lockoutTimestamp : Option Int := none
  sessionActive : Bool := false
deriving Repr, DecidableEq

/-- `LOCKOUT_DURATION = 15 * 60 * 1000` milliseconds. -/
def LOCKOUT_DURATION : Int := 15 * 60 * 1000

/-- `MAX_FAILED_ATTEMPTS = 5`. -/
def MAX_FAILED_ATTEMPTS : Nat := 5

namespace StorageService

/-- `storeCredentials(email, password)`: writes the single keychain slot,
replacing any prior value; `false` if the keychain call throws. -/
def storeCredentials (ok : Bool) (email password : String)
    (st : StorageState) : Bool × StorageState :=
  if ok then (true, { st with credential := some ⟨email, password⟩ })
  else (false, st)

/-- `getCredentials()`: the current slot, or `none` if never set or the
keychain read throws.  Read-only. -/
def getCredentials (ok : Bool) (st : StorageState) : Option Credential :=
  if ok then st.credential else none

/-- `clearCredentials()`: resets the keychain slot. -/
def clearCredentials (ok : Bool) (st : StorageState) : Bool × StorageState :=
  if ok then (true, { st with credential := none }) else (false, st)

/-- `storeUserData(user)`: JSON-encodes the profile under `USER_DATA`. -/
def storeUserData (ok : Bool) (user : User)
    (st : StorageState) : Bool × StorageState :=
  if ok then (true, { st with userData := some user }) else (false, st)

/-- `getUserData()`: parses `USER_DATA`, `none` if unset or the read throws. -/
def getUserData (ok : Bool) (st : StorageState) : Option User :=
  if ok then st.userData else none

/-- `clearUserData()`: removes `USER_DATA`. -/
def clearUserData (ok : Bool) (st : StorageState) : Bool × StorageState :=
  if ok then (true, { st with userData := none }) else (false, st)

/-- `storePartialRegistration(data)`: JSON-encodes the draft **as given**
under `PARTIAL_REGISTRATION`; the source performs no field filtering. -/
def storePartialRegistration (ok : Bool) (data : PartialRegistration)
    (st : StorageState) : Bool × StorageState :=
  if ok then (true, { st with partialRegistration := some data })
  else (false, st)

/-- `getPartialRegistration()`: parses the stored draft, `none` if unset or
the read throws. -/
def getPartialRegistration (ok : Bool) (st : StorageState) :
    Option PartialRegistration :=
  if ok then st.partialRegistration else none

/-- `clearPartialRegistration()`: removes `PARTIAL_REGISTRATION`. -/
def clearPartialRegistration (ok : Bool) (st : StorageState) :
    Bool × StorageState :=
  if ok then (true, { st with partialRegistration := none }) else (false, st)

/-- `getFailedAttempts()`: `parseInt` of the stored counter, `0` if unset or
the read throws. -/
def getFailedAttempts (ok : Bool) (st : StorageState) : Nat :=
  if ok then st.failedAttempts.getD 0 else 0

/-- `incrementFailedAttempts()`: reads the counter (with its own catch),
adds 1 and persists; once the new count reaches `MAX_FAILED_ATTEMPTS` it also
stamps `Date.now()` as `LOCKOUT_TIMESTAMP`.  Returns `0` if either `setItem`
throws (the outer catch), leaving whatever was written so far in place. -/
def incrementFailedAttempts (okRead okWriteCount okWriteStamp : Bool)
    (now : Int) (st : StorageState) : Nat × StorageState :=
  let attempts := getFailedAttempts okRead st
  let newAttempts := attempts + 1
  if okWriteCount then
    let st1 := { st with failedAttempts := some newAttempts }
    if MAX_FAILED_ATTEMPTS ≤ newAttempts then
      if okWriteStamp then
        (newAttempts, { st1 with lockoutTimestamp := some now })
      else (0, st1)
    else (newAttempts, st1)
  else (0, st)

/-- `resetFailedAttempts()`: removes the counter, then the lockout timestamp;
`false` if either `removeItem` throws (later removals are then skipped). -/
def resetFailedAttempts (okRemoveCount okRemoveStamp : Bool)
    (st : StorageState) : Bool × StorageState :=
  if okRemoveCount then
    let st1 := { st with failedAttempts := none }
    if okRemoveStamp then (true, { st1 with lockoutTimestamp := none })
    else (false, st1)
  else (false, st)

/-- `isLockedOut()`: reads `LOCKOUT_TIMESTAMP` (`false` on a throwing read or
when absent); if `now − timestamp ≥ LOCKOUT_DURATION` it performs an implicit
`resetFailedAttempts()` and returns `false`; otherwise `true`. -/
def isLockedOut (okRead okRemoveCount okRemoveStamp : Bool) (now : Int)
    (st : StorageState) : Bool × StorageState :=
  if okRead then
    match st.lockoutTimestamp with
    | none => (false, st)
    | some ts =>
      if LOCKOUT_DURATION ≤ now - ts then
        let r := resetFailedAttempts okRemoveCount okRemoveStamp st
        (false, r.2)
      else (true, st)
  else (false, st)

/-- `getRemainingLockoutTime()`: `0` if the timestamp is absent or the read
throws; else `remaining = LOCKOUT_DURATION − (now − timestamp)`, returned as
`Math.ceil(remaining / 1000)` seconds when positive, `0` otherwise. -/
def getRemainingLockoutTime (okRead : Bool) (now : Int)
    (st : StorageState) : Nat :=
  if okRead then
    match st.lockoutTimestamp with
    | none => 0
    | some ts =>
      let remaining : Int := LOCKOUT_DURATION - (now - ts)
      if 0 < remaining then (remaining.toNat + 999) / 1000 else 0
  else 0

/-- `hasSession()`: `true` iff both `getCredentials()` and `getUserData()`
return a value — derived from data presence, not from the session flag. -/
def hasSession (okCred okUser : Bool) (st : StorageState) : Bool :=
  (getCredentials okCred st).isSome && (getUserData okUser st).isSome

/-- Modelled from the spec: `setSessionActive` is called by
`AuthService.register` and `AuthService.login` but has no definition in
`src/src/services/storage.ts`.  Spec §3 `SessionFlag`: a boolean "is an
authenticated session currently active", "set true on successful
register/login"; store operations fail softly (§4.1), so this never throws. -/
def setSessionActive (b : Bool) (st : StorageState) : Bool × StorageState :=
  (true, { st with sessionActive := b })

/-- Modelled from the spec: `clearSession` is called by `AuthService.logout`
but has no definition in `src/src/services/storage.ts`.  Spec §4.2 Logout:
"clears session-related state only; must NOT remove the stored credential or
profile". -/
def clearSession (st : StorageState) : Bool × StorageState :=
  (true, { st with sessionActive := false })

end StorageService

/-- The service-layer result value `{success, user?, error?, lockedOut?,
remainingTime?}`. -/
structure AuthResult where
  success : Bool
  user : Option User := none
  error : Option String := none
  lockedOut : Option Bool := none
  remainingTime : Option Nat := none
deriving Repr, DecidableEq

namespace AuthService

open StorageService

/-- Which backend calls issued by `AuthService.register` complete (`true`)
rather than throw; all complete by default. -/
structure RegisterFaults where
  okGetCred : Bool := true
  okStoreCred : Bool := true
  okStoreUser : Bool := true
  okClearCred : Bool := true
  okClearPartial : Bool := true
deriving Repr, DecidableEq

/-- `AuthService.register(data)`: reject a matching stored email, build the
profile (excluding password), store credential then profile — rolling back the
credential if the profile write fails — then mark the session active and clear
the partial-registration draft. -/
def register (f : RegisterFaults) (data : RegistrationFormData)
    (st : StorageState) : AuthResult × StorageState :=
  let existing := getCredentials f.okGetCred st
  if existing.map Credential.email = some data.email then
    ({ success := false,
       error := some "An account with this email already exists" }, st)
  else
    let user : User := ⟨data.email, data.firstName, data.lastName,
                        data.phoneNumber⟩
    let c := storeCredentials f.okStoreCred data.email data.password st
    if c.1 = false then
      ({ success := false, error := some "Failed to store credentials" }, c.2)
    else
      let u := storeUserData f.okStoreUser user c.2
      if u.1 = false then
        let r := clearCredentials f.okClearCred u.2
        ({ success := false, error := some "Failed to store user data" }, r.2)
      else
        let s := setSessionActive true u.2
        let p := clearPartialRegistration f.okClearPartial s.2
        ({ success := true, user := some user }, p.2)

/-- Which backend calls issued by `AuthService.login` complete (`true`)
rather than throw; all complete by default. -/
structure LoginFaults where
  okLockRead1 : Bool := true
  okLockRemoveCount1 : Bool := true
  okLockRemoveStamp1 : Bool := true
  okRemRead1 : Bool := true
  okGetCred : Bool := true
  okIncRead : Bool := true
  okIncWriteCount : Bool := true
  okIncWriteStamp : Bool := true
  okLockRead2 : Bool := true
  okLockRemoveCount2 : Bool := true
  okLockRemoveStamp2 : Bool := true
  okRemRead2 : Bool := true
  okResetCount : Bool := true
  okResetStamp : Bool := true
  okGetUser : Bool := true
deriving Repr, DecidableEq

/-- `Math.ceil(seconds / 60)` for a non-negative number of seconds. -/
def ceilMinutes (seconds : Nat) : Nat := (seconds + 59) / 60

/-- `AuthService.login(data)`: reject while locked out; a missing credential
or a mismatched email/password increments the failed-attempt counter (the
mismatch path re-checks the lockout); on an exact match reset the counter,
mark the session active and load the profile. -/
def login (f : LoginFaults) (now : Int) (data : LoginFormData)
    (st : StorageState) : AuthResult × StorageState :=
  let l1 := isLockedOut f.okLockRead1 f.okLockRemoveCount1
              f.okLockRemoveStamp1 now st
  if l1.1 then
    let remainingTime := getRemainingLockoutTime f.okRemRead1 now l1.2
    ({ success := false, lockedOut := some true,
       remainingTime := some remainingTime,
       error := some ("Account locked. Please try again in " ++
         toString (ceilMinutes remainingTime) ++ " minutes.") }, l1.2)
  else
    match getCredentials f.okGetCred l1.2 with
    | none =>
      let i := incrementFailedAttempts f.okIncRead f.okIncWriteCount
                 f.okIncWriteStamp now l1.2
      ({ success := false, error := some "Invalid email or password" }, i.2)
    | some cred =>
      if cred.email ≠ data.email ∨ cred.password ≠ data.password then
        let i := incrementFailedAttempts f.okIncRead f.okIncWriteCount
                   f.okIncWriteStamp now l1.2
        let l2 := isLockedOut f.okLockRead2 f.okLockRemoveCount2
                    f.okLockRemoveStamp2 now i.2
        if l2.1 then
          let remainingTime := getRemainingLockoutTime f.okRemRead2 now l2.2
          ({ success := false, lockedOut := some true,
             remainingTime := some remainingTime,
             error := some ("Too many failed attempts. Account locked for " ++
               toString (ceilMinutes remainingTime) ++ " minutes.") }, l2.2)
        else
          ({ success := false, error := some "Invalid email or password" },
           l2.2)
      else
        let r := resetFailedAttempts f.okResetCount f.okResetStamp l1.2
        let s := setSessionActive true r.2
        match getUserData f.okGetUser s.2 with
        | none => ({ success := false, error := some "User data not found" },
                   s.2)
        | some user => ({ success := true, user := some user }, s.2)

/-- `AuthService.logout()`: only clears the session, not credentials or user
data (`return await StorageService.clearSession()`). -/
def logout (st : StorageState) : Bool × StorageState :=
  clearSession st

/-- `AuthService.checkAuth()`: unauthenticated when `hasSession()` is false;
otherwise authenticated, with `getUserData() || undefined` as payload. -/
def checkAuth (okCred okUser okGetUser : Bool) (st : StorageState) :
    Bool × Option User :=
  if hasSession okCred okUser st then (true, getUserData okGetUser st)
  else (false, none)

end AuthService

/-- `RegistrationScreen`'s save-on-change subscription
(`src/src/screens/RegistrationScreen.tsx` lines 61-73): it builds the draft
from only `email`, `firstName`, `lastName` and `phoneNumber` ("Don't save
passwords") and passes that to `storePartialRegistration`. -/
def restrictDraft (d : PartialRegistration) : PartialRegistration :=
  { email := d.email, firstName := d.firstName, lastName := d.lastName,
    phoneNumber := d.phoneNumber }

/-- The screen-level draft save: strip the password fields, then store. -/
def screenStorePartialRegistration (ok : Bool) (d : PartialRegistration)
    (st : StorageState) : Bool × StorageState :=
  StorageService.storePartialRegistration ok (restrictDraft d) st

open StorageService AuthService

/-- A lockout check that answers `false` either left the state untouched or
performed the implicit reset of the counter and the timestamp. -/
lemma isLockedOut_false_state (now : Int) (st : StorageState)
    (h : (isLockedOut true true true now st).1 = false) :
    isLockedOut true true true now st = (false, st) ∨
    isLockedOut true true true now st =
      (false, { st with failedAttempts := none, lockoutTimestamp := none }) := by
  unfold isLockedOut resetFailedAttempts at h ⊢
  rcases hts : st.lockoutTimestamp with _ | ts
  · left; simp [hts]
  · simp only [hts] at h ⊢
    by_cases hd : LOCKOUT_DURATION ≤ now - ts
    · right; simp [hd]
    · simp [hd] at h

/-- A lockout check that answers `true` leaves the state untouched. -/
lemma isLockedOut_true_state (okR okC okS : Bool) (now : Int)
    (st : StorageState) (h : (isLockedOut okR okC okS now st).1 = true) :
    isLockedOut okR okC okS now st = (true, st) := by
  unfold isLockedOut resetFailedAttempts at h ⊢
  rcases okR with _ | _
  · simp at h
  · rcases hts : st.lockoutTimestamp with _ | ts
    · simp [hts] at h
    · simp only [hts] at h ⊢
      split_ifs at h ⊢ <;> simp_all

/-- C1: for every registration input whose email does not equal the email of
any stored credential, when every backend call completes (in particular
`storeCredentials` and `storeUserData` both succeed), `register` returns
success with the profile built from the submitted fields excluding the
password, marks the session active, and clears the partial-registration
draft. -/
theorem register_fresh_email_succeeds (data : RegistrationFormData)
    (st : StorageState)
    (hne : st.credential.map Credential.email ≠ some data.email) :
    (register {} data st).1 =
      { success := true,
        user := some ⟨data.email, data.firstName, data.lastName,
                      data.phoneNumber⟩ } ∧
    (register {} data st).2.sessionActive = true ∧
    (register {} data st).2.partialRegistration = none := by
  simp [register, getCredentials, storeCredentials, storeUserData,
    setSessionActive, clearPartialRegistration, hne]

/-- C1 witness: a concrete fresh registration on an empty store. -/
theorem register_fresh_email_succeeds_witness :
    (({} : StorageState).credential.map Credential.email ≠
      some "a@b.com") ∧
    ((register {} ⟨"a@b.com", "Passw0rd", "Passw0rd", "John", "Doe",
        "1234567890"⟩ {}).1 =
      { success := true,
        user := some ⟨"a@b.com", "John", "Doe", "1234567890"⟩ } ∧
     (register {} ⟨"a@b.com", "Passw0rd", "Passw0rd", "John", "Doe",
        "1234567890"⟩ ({} : StorageState)).2.sessionActive = true ∧
     (register {} ⟨"a@b.com", "Passw0rd", "Passw0rd", "John", "Doe",
        "1234567890"⟩ ({} : StorageState)).2.partialRegistration = none) :=
  ⟨by decide,
   register_fresh_email_succeeds
     ⟨"a@b.com", "Passw0rd", "Passw0rd", "John", "Doe", "1234567890"⟩ {}
     (by decide)⟩

/-- C2 counterexample: from a state with a stored credential, a stored
profile and an active session, `logout()` leaves the credential and profile
in place, yet `hasSession()` and `checkAuth()` still report authenticated —
refuting the claim that they report unauthenticated after logout. -/
theorem logout_unauthenticated_counterexample :
    let st : StorageState :=
      { credential := some ⟨"a@b.com", "Passw0rd"⟩,
        userData := some ⟨"a@b.com", "John", "Doe", "1234567890"⟩,
        sessionActive := true }
    hasSession true true (logout st).2 = true ∧
    (checkAuth true true true (logout st).2).1 = true := by
  decide

/-- C2 (amended): after `logout()` the stored credential and user profile are
unchanged and the session flag is cleared, but `hasSession()` and
`checkAuth()` still report **authenticated**, because `hasSession` derives
its answer from the presence of the credential and profile rather than from
the session flag. -/
theorem logout_preserves_data_but_stays_authenticated (st : StorageState)
    (hc : st.credential.isSome) (hu : st.userData.isSome)
    (_hs : st.sessionActive = true) :
    (logout st).2.credential = st.credential ∧
    (logout st).2.userData = st.userData ∧
    (logout st).2.sessionActive = false ∧
    hasSession true true (logout st).2 = true ∧
    (checkAuth true true true (logout st).2).1 = true := by
  simp [logout, clearSession, hasSession, getCredentials, getUserData,
    checkAuth, hc, hu]

/-- C2 witness: the amended logout behaviour at a concrete state. -/
theorem logout_preserves_data_witness :
    let st : StorageState :=
      { credential := some ⟨"a@b.com", "Passw0rd"⟩,
        userData := some ⟨"a@b.com", "John", "Doe", "1234567890"⟩,
        sessionActive := true }
    (logout st).2.credential = st.credential ∧
    (logout st).2.userData = st.userData ∧
    (logout st).2.sessionActive = false ∧
    hasSession true true (logout st).2 = true ∧
    (checkAuth true true true (logout st).2).1 = true :=
  logout_preserves_data_but_stays_authenticated
    { credential := some ⟨"a@b.com", "Passw0rd"⟩,
      userData := some ⟨"a@b.com", "John", "Doe", "1234567890"⟩,
      sessionActive := true }
    (by decide) (by decide) (by decide)

/-- C3: when the account is not locked out and the submitted email and
password exactly equal the stored credential, `login` resets the
failed-attempt counter (and lockout timestamp) so that the counter reads 0,
marks the session active, and succeeds with the stored profile; if the
profile is missing despite the credential being present, it fails with the
profile-missing error. -/
theorem login_correct_credentials (data : LoginFormData) (st : StorageState)
    (now : Int)
    (hnl : (isLockedOut true true true now st).1 = false)
    (hc : st.credential = some ⟨data.email, data.password⟩) :
    (login {} now data st).2.failedAttempts = none ∧
    (login {} now data st).2.lockoutTimestamp = none ∧
    getFailedAttempts true (login {} now data st).2 = 0 ∧
    (login {} now data st).2.sessionActive = true ∧
    (∀ u, st.userData = some u →
      (login {} now data st).1 = { success := true, user := some u }) ∧
    (st.userData = none →
      (login {} now data st).1 =
        { success := false, error := some "User data not found" }) := by
  rcases isLockedOut_false_state now st hnl with h2 | h2 <;>
    rcases hu : st.userData with _ | u <;>
      simp [login, h2, hu, getCredentials, hc, resetFailedAttempts,
        setSessionActive, getUserData, getFailedAttempts]

/-- C3 witness: a concrete matching login with a stored profile, and a
concrete matching login with the profile missing. -/
theorem login_correct_credentials_witness :
    let cred : Credential := ⟨"a@b.com", "Passw0rd"⟩
    let u : User := ⟨"a@b.com", "John", "Doe", "1234567890"⟩
    let st : StorageState :=
      { credential := some cred, userData := some u,
        failedAttempts := some 3 }
    (isLockedOut true true true 42 st).1 = false ∧
    (login {} 42 ⟨"a@b.com", "Passw0rd"⟩ st).2.failedAttempts = none ∧
    getFailedAttempts true (login {} 42 ⟨"a@b.com", "Passw0rd"⟩ st).2 = 0 ∧
    (login {} 42 ⟨"a@b.com", "Passw0rd"⟩ st).2.sessionActive = true ∧
    (login {} 42 ⟨"a@b.com", "Passw0rd"⟩ st).1 =
      { success := true, user := some u } := by
  refine ⟨by decide, ?_, ?_, ?_, ?_⟩
  · exact (login_correct_credentials ⟨"a@b.com", "Passw0rd"⟩ _ 42
      (by decide) rfl).1
  · exact (login_correct_credentials ⟨"a@b.com", "Passw0rd"⟩ _ 42
      (by decide) rfl).2.2.1
  · exact (login_correct_credentials ⟨"a@b.com", "Passw0rd"⟩ _ 42
      (by decide) rfl).2.2.2.1
  · exact (login_correct_credentials ⟨"a@b.com", "Passw0rd"⟩ _ 42
      (by decide) rfl).2.2.2.2.1 _ rfl

/-- C4 counterexample: `storePartialRegistration` persists the draft
verbatim, so storing a draft that includes a password and reading it back
returns the password-carrying draft itself, not its restriction to
non-password fields. -/
theorem storePartialRegistration_password_counterexample :
    let d : PartialRegistration :=
      { email := some "a@b.com", password := some "Passw0rd" }
    getPartialRegistration true
        (storePartialRegistration true d ({} : StorageState)).2 = some d ∧
    d.password = some "Passw0rd" ∧
    some d ≠ some (restrictDraft d) := by
  decide

/-- C4 (amended): `StorageService.storePartialRegistration` itself stores the
draft verbatim (the round-trip returns the input unchanged, password
included); the password exclusion is enforced one layer up, in
`RegistrationScreen`'s save-on-change subscription, which builds the draft
from only the non-password fields before storing.  Through that screen path
the round-trip returns exactly the restriction of the draft to its
non-password fields, and the persisted draft never contains `password` or
`confirmPassword`. -/
theorem screen_draft_roundtrip_excludes_password (d : PartialRegistration)
    (st : StorageState) :
    getPartialRegistration true
        (screenStorePartialRegistration true d st).2 =
      some (restrictDraft d) ∧
    (restrictDraft d).password = none ∧
    (restrictDraft d).confirmPassword = none ∧
    getPartialRegistration true (storePartialRegistration true d st).2 =
      some d := by
  simp [screenStorePartialRegistration, storePartialRegistration,
    getPartialRegistration, restrictDraft]

/-- C6: every login attempted while `isLockedOut()` is true — whatever the
submitted email and password are — fails with the locked-out result carrying
the remaining seconds and a wait message whose minute count is
`ceil(seconds / 60)`, and leaves the state (in particular the failed-attempt
counter) unchanged. -/
theorem login_while_locked_out (data : LoginFormData) (st : StorageState)
    (now : Int) (h : (isLockedOut true true true now st).1 = true) :
    login {} now data st =
      ({ success := false, lockedOut := some true,
         remainingTime := some (getRemainingLockoutTime true now st),
         error := some ("Account locked. Please try again in " ++
           toString (ceilMinutes (getRemainingLockoutTime true now st)) ++
           " minutes.") }, st) ∧
    (login {} now data st).2.failedAttempts = st.failedAttempts := by
  have h2 := isLockedOut_true_state true true true now st h
  constructor
  · simp [login, h2]
  · simp [login, h2]

/-- C6 witness: a concrete login one minute into the lockout window — 840
remaining seconds, a 14-minute wait message, and an unchanged counter —
for a submission matching the stored credential. -/
theorem login_while_locked_out_witness :
    let st : StorageState :=
      { credential := some ⟨"a@b.com", "Passw0rd"⟩,
        failedAttempts := some 5, lockoutTimestamp := some 0 }
    (isLockedOut true true true 60000 st).1 = true ∧
    login {} 60000 ⟨"a@b.com", "Passw0rd"⟩ st =
      ({ success := false, lockedOut := some true,
         remainingTime := some 840,
         error := some "Account locked. Please try again in 14 minutes." },
       st) ∧
    (login {} 60000 ⟨"a@b.com", "Passw0rd"⟩ st).2.failedAttempts = some 5 := by
  refine ⟨by decide, ?_, ?_⟩
  · have h := (login_while_locked_out ⟨"a@b.com", "Passw0rd"⟩
      { credential := some ⟨"a@b.com", "Passw0rd"⟩,
        failedAttempts := some 5, lockoutTimestamp := some 0 }
      60000 (by decide)).1
    rw [h]
    decide
  · exact (login_while_locked_out ⟨"a@b.com", "Passw0rd"⟩
      { credential := some ⟨"a@b.com", "Passw0rd"⟩,
        failedAttempts := some 5, lockoutTimestamp := some 0 }
      60000 (by decide)).2

/-- C5 counterexample: with a credential already stored for `a@b.com`,
registering with the different email `c@d.com` does not fail — it succeeds
and overwrites the single credential slot — refuting "for every state in
which a credential is already stored, register fails ... and leaves the
stored credential slot unchanged". -/
theorem register_overwrites_counterexample :
    let st : StorageState := { credential := some ⟨"a@b.com", "Passw0rd"⟩ }
    let data : RegistrationFormData :=
      ⟨"c@d.com", "Newpass1", "Newpass1", "Jane", "Roe", "0987654321"⟩
    (register {} data st).1.success = true ∧
    (register {} data st).2.credential = some ⟨"c@d.com", "Newpass1"⟩ ∧
    st.credential = some ⟨"a@b.com", "Passw0rd"⟩ := by
  decide

/-- C5 (amended): when the **submitted email equals the stored credential's
email**, `register` fails with the already-exists error regardless of the
submitted password and leaves the state (in particular the credential slot)
unchanged; when the submitted email differs from the stored one, registration
proceeds and (with succeeding backends) overwrites the single credential
slot with the new credential. -/
theorem register_existing_email_fails (data : RegistrationFormData)
    (c : Credential) (st : StorageState) (hc : st.credential = some c) :
    (c.email = data.email →
      (register {} data st).1 =
        { success := false,
          error := some "An account with this email already exists" } ∧
      (register {} data st).2 = st) ∧
    (c.email ≠ data.email →
      (register {} data st).1.success = true ∧
      (register {} data st).2.credential =
        some ⟨data.email, data.password⟩) := by
  constructor
  · intro heq
    simp [register, getCredentials, hc, heq]
  · intro hne
    simp [register, getCredentials, storeCredentials, storeUserData,
      setSessionActive, clearPartialRegistration, hc, hne]

/-- C5 witness: the amended behaviour at concrete inputs — the matching email
is rejected with the slot untouched, the fresh email overwrites. -/
theorem register_existing_email_fails_witness :
    let st : StorageState := { credential := some ⟨"a@b.com", "Passw0rd"⟩ }
    ((("a@b.com" : String) = "a@b.com" →
      (register {} ⟨"a@b.com", "Other123", "Other123", "J", "D",
          "1234567890"⟩ st).1 =
        { success := false,
          error := some "An account with this email already exists" } ∧
      (register {} ⟨"a@b.com", "Other123", "Other123", "J", "D",
          "1234567890"⟩ st).2 = st) ∧
     (("a@b.com" : String) ≠ "a@b.com" →
      (register {} ⟨"a@b.com", "Other123", "Other123", "J", "D",
          "1234567890"⟩ st).1.success = true ∧
      (register {} ⟨"a@b.com", "Other123", "Other123", "J", "D",
          "1234567890"⟩ st).2.credential =
        some ⟨"a@b.com", "Other123"⟩)) :=
  register_existing_email_fails
    ⟨"a@b.com", "Other123", "Other123", "J", "D", "1234567890"⟩
    ⟨"a@b.com", "Passw0rd"⟩
    { credential := some ⟨"a@b.com", "Passw0rd"⟩ } rfl

/-- C7: `isLockedOut()` is false when no lockout timestamp is stored; with a
stored timestamp it is true exactly when less than 15 minutes have elapsed,
and once 15 minutes have elapsed it performs the implicit
`resetFailedAttempts` (clearing both the counter and the timestamp) and
returns false.  Consequently, starting from a zero counter and no timestamp,
after exactly 5 consecutive failed attempts (no timestamp yet after the 4th,
a timestamp after the 5th) `isLockedOut()` is true at every instant less
than 15 minutes past the 5th attempt and false from 15 minutes on. -/
theorem isLockedOut_lockout_behaviour (now : Int) (st : StorageState) :
    (st.lockoutTimestamp = none →
      isLockedOut true true true now st = (false, st)) ∧
    (∀ ts : Int, st.lockoutTimestamp = some ts →
      (now - ts < LOCKOUT_DURATION →
        isLockedOut true true true now st = (true, st)) ∧
      (LOCKOUT_DURATION ≤ now - ts →
        isLockedOut true true true now st =
          (false,
           { st with failedAttempts := none, lockoutTimestamp := none }))) ∧
    (∀ t1 t2 t3 t4 t5 : Int,
      getFailedAttempts true st = 0 → st.lockoutTimestamp = none →
      (incrementFailedAttempts true true true t4
        (incrementFailedAttempts true true true t3
          (incrementFailedAttempts true true true t2
            (incrementFailedAttempts true true true t1
              st).2).2).2).2.lockoutTimestamp = none ∧
      (incrementFailedAttempts true true true t5
        (incrementFailedAttempts true true true t4
          (incrementFailedAttempts true true true t3
            (incrementFailedAttempts true true true t2
              (incrementFailedAttempts true true true t1
                st).2).2).2).2).2.failedAttempts = some 5 ∧
      (incrementFailedAttempts true true true t5
        (incrementFailedAttempts true true true t4
          (incrementFailedAttempts true true true t3
            (incrementFailedAttempts true true true t2
              (incrementFailedAttempts true true true t1
                st).2).2).2).2).2.lockoutTimestamp = some t5 ∧
      (∀ t : Int, t - t5 < LOCKOUT_DURATION →
        (isLockedOut true true true t
          (incrementFailedAttempts true true true t5
            (incrementFailedAttempts true true true t4
              (incrementFailedAttempts true true true t3
                (incrementFailedAttempts true true true t2
                  (incrementFailedAttempts true true true t1
                    st).2).2).2).2).2).1 = true) ∧
      (∀ t : Int, LOCKOUT_DURATION ≤ t - t5 →
        (isLockedOut true true true t
          (incrementFailedAttempts true true true t5
            (incrementFailedAttempts true true true t4
              (incrementFailedAttempts true true true t3
                (incrementFailedAttempts true true true t2
                  (incrementFailedAttempts true true true t1
                    st).2).2).2).2).2).1 = false)) := by
  refine ⟨?_, ?_, ?_⟩
  · intro hts
    simp [isLockedOut, hts]
  · intro ts hts
    constructor
    · intro hlt
      simp [isLockedOut, hts, not_le.mpr hlt]
    · intro hge
      simp [isLockedOut, resetFailedAttempts, hts, hge]
  · intro t1 t2 t3 t4 t5 h0 hts
    simp only [getFailedAttempts, if_true] at h0
    simp [incrementFailedAttempts, getFailedAttempts, isLockedOut,
      MAX_FAILED_ATTEMPTS, h0, hts]
    constructor
    · intro t hlt
      simp [not_le.mpr hlt]
    · intro t hge
      simp [resetFailedAttempts, hge]

/-- C7 witness: on the empty store the check is false; five concrete failed
attempts (at 10..50 ms) set the counter to 5 and the timestamp to the 5th
attempt, the check is true one minute later and false 15 minutes later. -/
theorem isLockedOut_lockout_behaviour_witness :
    let st5 := (incrementFailedAttempts true true true 50
      (incrementFailedAttempts true true true 40
        (incrementFailedAttempts true true true 30
          (incrementFailedAttempts true true true 20
            (incrementFailedAttempts true true true 10
              ({} : StorageState)).2).2).2).2).2
    isLockedOut true true true 0 ({} : StorageState) = (false, {}) ∧
    st5.failedAttempts = some 5 ∧
    st5.lockoutTimestamp = some 50 ∧
    (isLockedOut true true true 60050 st5).1 = true ∧
    (isLockedOut true true true 900050 st5).1 = false := by
  refine ⟨(isLockedOut_lockout_behaviour 0 {}).1 rfl, ?_, ?_, ?_, ?_⟩
  · exact ((isLockedOut_lockout_behaviour 0 {}).2.2 10 20 30 40 50
      (by decide) rfl).2.1
  · exact ((isLockedOut_lockout_behaviour 0 {}).2.2 10 20 30 40 50
      (by decide) rfl).2.2.1
  · exact ((isLockedOut_lockout_behaviour 0 {}).2.2 10 20 30 40 50
      (by decide) rfl).2.2.2.1 60050 (by decide)
  · exact ((isLockedOut_lockout_behaviour 0 {}).2.2 10 20 30 40 50
      (by decide) rfl).2.2.2.2 900050 (by decide)

/-- C8: when the profile write fails after the credential write succeeded,
`register` clears the just-stored credential (with the rollback delete
completing), fails with the profile-store error, and has no further side
effects: the session flag, the partial-registration draft, the stored user
data and the lockout state are exactly as before the call. -/
theorem register_rollback_on_profile_failure (data : RegistrationFormData)
    (st : StorageState)
    (hne : st.credential.map Credential.email ≠ some data.email) :
    (register { okStoreUser := false } data st).1 =
      { success := false, error := some "Failed to store user data" } ∧
    (register { okStoreUser := false } data st).2 =
      { st with credential := none } ∧
    (register { okStoreUser := false } data st).2.sessionActive =
      st.sessionActive ∧
    (register { okStoreUser := false } data st).2.partialRegistration =
      st.partialRegistration := by
  simp [register, getCredentials, storeCredentials, storeUserData,
    clearCredentials, hne]

/-- C8 witness: a concrete registration over a draft-holding store whose
profile write fails — the credential slot ends empty, the draft stays. -/
theorem register_rollback_on_profile_failure_witness :
    let st : StorageState :=
      { partialRegistration := some { email := some "a@b.com" } }
    (st.credential.map Credential.email ≠ some "a@b.com") ∧
    ((register { okStoreUser := false }
        ⟨"a@b.com", "Passw0rd", "Passw0rd", "John", "Doe", "1234567890"⟩
        st).1 =
      { success := false, error := some "Failed to store user data" } ∧
     (register { okStoreUser := false }
        ⟨"a@b.com", "Passw0rd", "Passw0rd", "John", "Doe", "1234567890"⟩
        st).2 = { st with credential := none } ∧
     (register { okStoreUser := false }
        ⟨"a@b.com", "Passw0rd", "Passw0rd", "John", "Doe", "1234567890"⟩
        st).2.sessionActive = st.sessionActive ∧
     (register { okStoreUser := false }
        ⟨"a@b.com", "Passw0rd", "Passw0rd", "John", "Doe", "1234567890"⟩
        st).2.partialRegistration = st.partialRegistration) :=
  ⟨by decide,
   register_rollback_on_profile_failure
     ⟨"a@b.com", "Passw0rd", "Passw0rd", "John", "Doe", "1234567890"⟩
     { partialRegistration := some { email := some "a@b.com" } }
     (by decide)⟩

/-- C9: `getRemainingLockoutTime()` is 0 when no lockout timestamp is stored
or once 15 minutes have elapsed since it, and otherwise is
`ceil((15 min − elapsed) / 1000)` seconds; at a fixed state it is
monotonically non-increasing as the clock advances, and it is 0 exactly when
`isLockedOut()` answers false. -/
theorem getRemainingLockoutTime_behaviour (st : StorageState) :
    (st.lockoutTimestamp = none → ∀ now : Int,
      getRemainingLockoutTime true now st = 0) ∧
    (∀ ts : Int, st.lockoutTimestamp = some ts →
      (∀ now : Int, LOCKOUT_DURATION ≤ now - ts →
        getRemainingLockoutTime true now st = 0) ∧
      (∀ now : Int, now - ts < LOCKOUT_DURATION →
        getRemainingLockoutTime true now st =
          ((LOCKOUT_DURATION - (now - ts)).toNat + 999) / 1000)) ∧
    (∀ now1 now2 : Int, now1 ≤ now2 →
      getRemainingLockoutTime true now2 st ≤
        getRemainingLockoutTime true now1 st) ∧
    (∀ now : Int, getRemainingLockoutTime true now st = 0 ↔
      (isLockedOut true true true now st).1 = false) := by
  refine ⟨?_, ?_, ?_, ?_⟩
  · intro hts now
    simp [getRemainingLockoutTime, hts]
  · intro ts hts
    constructor
    · intro now hge
      have : ¬(0 < LOCKOUT_DURATION - (now - ts)) := by omega
      simp [getRemainingLockoutTime, hts, this]
    · intro now hlt
      have : 0 < LOCKOUT_DURATION - (now - ts) := by omega
      simp [getRemainingLockoutTime, hts, this]
  · intro now1 now2 hle
    rcases hts : st.lockoutTimestamp with _ | ts
    · simp [getRemainingLockoutTime, hts]
    · simp only [getRemainingLockoutTime, hts, if_true]
      split_ifs with h2 h1 h1
      · apply Nat.div_le_div_right
        omega
      · omega
      · exact Nat.zero_le _
      · exact Nat.zero_le _
  · intro now
    rcases hts : st.lockoutTimestamp with _ | ts
    · simp [getRemainingLockoutTime, isLockedOut, hts]
    · rcases le_or_lt LOCKOUT_DURATION (now - ts) with hl | hl
      · have h1 : ¬(0 < LOCKOUT_DURATION - (now - ts)) := by omega
        simp [getRemainingLockoutTime, isLockedOut, resetFailedAttempts,
          hts, hl, h1]
      · have h1 : 0 < LOCKOUT_DURATION - (now - ts) := by omega
        have h2 : ¬(LOCKOUT_DURATION ≤ now - ts) := by omega
        simp [getRemainingLockoutTime, isLockedOut, hts, h1, h2]
        intro h0
        rw [Nat.div_eq_zero_iff (by norm_num)] at h0
        omega

/-- C9 witness: with a lockout stamped at time 0, one minute in 840 seconds
remain, at 15 minutes 0 seconds remain, the value at minute 2 is at most the
value at minute 1, and the zero-value/unlocked equivalence holds at
minute 1. -/
theorem getRemainingLockoutTime_behaviour_witness :
    let st : StorageState :=
      { failedAttempts := some 5, lockoutTimestamp := some 0 }
    getRemainingLockoutTime true 60000 st = 840 ∧
    getRemainingLockoutTime true 900000 st = 0 ∧
    getRemainingLockoutTime true 120000 st ≤
      getRemainingLockoutTime true 60000 st ∧
    (getRemainingLockoutTime true 60000 st = 0 ↔
      (isLockedOut true true true 60000 st).1 = false) := by
  refine ⟨?_, ?_, ?_, ?_⟩
  · have h := ((getRemainingLockoutTime_behaviour
      { failedAttempts := some 5, lockoutTimestamp := some 0 }).2.1
        0 rfl).2 60000 (by decide)
    rw [h]
    decide
  · exact ((getRemainingLockoutTime_behaviour
      { failedAttempts := some 5, lockoutTimestamp := some 0 }).2.1
        0 rfl).1 900000 (by decide)
  · exact (getRemainingLockoutTime_behaviour
      { failedAttempts := some 5, lockoutTimestamp := some 0 }).2.2.1
        60000 120000 (by decide)
  · exact (getRemainingLockoutTime_behaviour
      { failedAttempts := some 5, lockoutTimestamp := some 0 }).2.2.2 60000

/-- C10: a throwing backend read makes the lockout machinery fail open —
`isLockedOut()` returns false (leaving the state untouched),
`getRemainingLockoutTime()` returns 0 and `getFailedAttempts()` returns 0 —
so whatever the stored failed-attempt count and lockout timestamp are, a
login whose submitted credentials match the stored ones proceeds and
succeeds. -/
theorem lockout_check_fails_open (now : Int) (st : StorageState)
    (data : LoginFormData) :
    isLockedOut false true true now st = (false, st) ∧
    getRemainingLockoutTime false now st = 0 ∧
    getFailedAttempts false st = 0 ∧
    (st.credential = some ⟨data.email, data.password⟩ →
      ∀ u, st.userData = some u →
        (login { okLockRead1 := false } now data st).1 =
          { success := true, user := some u }) := by
  refine ⟨by simp [isLockedOut], by simp [getRemainingLockoutTime],
    by simp [getFailedAttempts], ?_⟩
  intro hc u hu
  simp [login, isLockedOut, getCredentials, hc, hu, resetFailedAttempts,
    setSessionActive, getUserData]

/-- C10 witness: a store five failed attempts deep into a fresh lockout
still lets a matching login succeed when the lockout read throws. -/
theorem lockout_check_fails_open_witness :
    let st : StorageState :=
      { credential := some ⟨"a@b.com", "Passw0rd"⟩,
        userData := some ⟨"a@b.com", "John", "Doe", "1234567890"⟩,
        failedAttempts := some 5, lockoutTimestamp := some 60000 }
    isLockedOut false true true 61000 st = (false, st) ∧
    getRemainingLockoutTime false 61000 st = 0 ∧
    (login { okLockRead1 := false } 61000 ⟨"a@b.com", "Passw0rd"⟩ st).1 =
      { success := true,
        user := some ⟨"a@b.com", "John", "Doe", "1234567890"⟩ } := by
  refine ⟨?_, ?_, ?_⟩
  · exact (lockout_check_fails_open 61000
      { credential := some ⟨"a@b.com", "Passw0rd"⟩,
        userData := some ⟨"a@b.com", "John", "Doe", "1234567890"⟩,
        failedAttempts := some 5, lockoutTimestamp := some 60000 }
      ⟨"a@b.com", "Passw0rd"⟩).1
  · exact (lockout_check_fails_open 61000
      { credential := some ⟨"a@b.com", "Passw0rd"⟩,
        userData := some ⟨"a@b.com", "John", "Doe", "1234567890"⟩,
        failedAttempts := some 5, lockoutTimestamp := some 60000 }
      ⟨"a@b.com", "Passw0rd"⟩).2.1
  · exact (lockout_check_fails_open 61000
      { credential := some ⟨"a@b.com", "Passw0rd"⟩,
        userData := some ⟨"a@b.com", "John", "Doe", "1234567890"⟩,
        failedAttempts := some 5, lockoutTimestamp := some 60000 }
      ⟨"a@b.com", "Passw0rd"⟩).2.2.2 rfl _ rfl

end VisaReg
